import Mathlib

/-!
Verification of the WhisperNotes pipeline-orchestration core against its
specification.  The definitions below are a shallow embedding of the Python
services under `src/services/` (`file-uploader`, `video-processor`,
`whisper-transcriber`): pure fragments become Lean functions, stateful
handlers become explicit state-passing functions, Python floats are
modelled as rationals, and JSON dictionaries as structures or association
lists.  Each claim about the system is then stated and settled as a
theorem over these definitions.
-/

namespace WhisperNotes

/-! ## Upload session data model (file-uploader/main.py)

A recorded part in an upload session.  In the source a part is the dict
`{"part_number": part_number, "etag": result.etag}` appended by
`upload_part` (file-uploader/main.py lines 407-411). -/

structure PartEntry where
  part_number : Nat
  etag : String
deriving Repr, DecidableEq

/-- Embedding of the Redis mutation performed by `upload_part`
(file-uploader/main.py lines 407-411):

    parts = session_data.get("parts", [])
    parts.append({"part_number": part_number, "etag": result.etag})
    session_data["parts"] = parts

The new entry is appended unconditionally; there is no lookup of an
existing entry with the same `part_number`. -/
def upload_part_record (parts : List PartEntry) (part_number : Nat) (etag : String) :
    List PartEntry :=
  parts ++ [⟨part_number, etag⟩]

/-- Number of entries in a part list carrying a given part number. -/
def countPartNumber (parts : List PartEntry) (n : Nat) : Nat :=
  parts.countP (fun p => p.part_number == n)

/-! ## Complete (file-uploader/main.py, `complete_upload`, lines 467-578)

The handler reads the session's recorded parts from Redis.  If the list
is empty, line 494 raises `HTTPException(400, "No parts found for this
upload")` — but that raise sits inside the `try:` opened at line 490,
and the handler has no `except HTTPException: raise` guard, so the broad
`except Exception as e:` at line 576 catches it and re-raises
`HTTPException(500, f"Failed to complete upload: {str(e)}")`; since
Starlette renders `str(HTTPException(c, d))` as `"{c}: {d}"`, the
outcome the client observes is HTTP 500 with detail
`"Failed to complete upload: 400: No parts found for this upload"`.
Otherwise the handler sorts the list by part number, compares the
part-number sequence with `[1..n]`, and on a mismatch only emits
`logger.warning(...)` — it does not raise and does not stop.  It then
assembles the object, marks the session `upload_complete = True` in
Redis, and publishes exactly one message to the video-processing queue.
We embed the handler's decision logic; the external object-store
transfers are taken as succeeding (their failure raises before any
mutation of the session record). -/

/-- Starlette's `str()` of an `HTTPException(status_code, detail)`:
`f"{self.status_code}: {self.detail}"`. -/
def httpExceptionStr (status_code : Nat) (detail : String) : String :=
  toString status_code ++ ": " ++ detail

/-- Outcome of the `complete_upload` handler. -/
inductive CompleteOutcome where
  /-- An `HTTPException(status_code, detail)` was raised. -/
  | httpError (status_code : Nat) (detail : String)
  /-- The upload was completed; `warned` records whether the
  non-consecutive-parts warning was logged. -/
  | success (warned : Bool)
deriving Repr, DecidableEq

/-- Result of running `complete_upload` on a session: the HTTP outcome,
whether the session record was mutated (`upload_complete` set), and how
many stage messages were published to the video-processing queue. -/
structure CompleteResult where
  outcome : CompleteOutcome
  sessionMarkedComplete : Bool
  messagesPublished : Nat
deriving Repr, DecidableEq

/-- Insert a part into a list sorted by part number, after any entry with
a smaller-or-equal part number (so the sort below is stable, like
Python's `list.sort`). -/
def insertPart (p : PartEntry) : List PartEntry → List PartEntry
  | [] => [p]
  | q :: qs =>
    if p.part_number < q.part_number then p :: q :: qs else q :: insertPart p qs

/-- `all_parts.sort(key=lambda p: p["part_number"])`: stable sort by part
number. -/
def sortParts (parts : List PartEntry) : List PartEntry :=
  parts.foldl (fun acc p => insertPart p acc) []

/-- The consecutive-numbering check of `complete_upload` (lines 499-503):
`expected_parts = list(range(1, len(all_parts) + 1))` compared with the
part numbers of the sorted list. -/
def partsConsecutive (parts : List PartEntry) : Bool :=
  (sortParts parts).map (·.part_number) == List.range' 1 parts.length

/-- Embedding of `complete_upload` (lines 490-578): empty part list →
the internal HTTP-400 raise is swallowed by the catch-all at line 576,
so the observable outcome is HTTP 500 with the wrapped detail, nothing
mutated, nothing published; otherwise the handler proceeds regardless of
the consecutiveness check (which only controls a warning), marks the
session complete, and publishes one message. -/
def complete_upload (parts : List PartEntry) : CompleteResult :=
  if parts.isEmpty then
    { outcome := .httpError 500 ("Failed to complete upload: " ++
        httpExceptionStr 400 "No parts found for this upload")
      sessionMarkedComplete := false
      messagesPublished := 0 }
  else
    { outcome := .success (!partsConsecutive parts)
      sessionMarkedComplete := true
      messagesPublished := 1 }

/-! ## Stage messages and worker state

Both queue consumers (`process_upload_message` in video-processor/main.py
lines 344-397 and in whisper-transcriber/main.py lines 964-1045) receive
the message `{session_id, object_name, original_filename, num_speakers}`
published by the uploader. -/

structure StageMessage where
  session_id : String
  object_name : String
  original_filename : String
deriving Repr, DecidableEq

/-- A progress update `(progress, message, status)` sent through
`send_progress_update` to the file-uploader. -/
structure ProgressUpdate where
  progress : ℚ
  message : String
  status : String
deriving Repr, DecidableEq

/-- What the external calls made by a worker do on this delivery: whether
the MinIO download succeeds, and whether the stage's processing coroutine
(`process_video_async` / `transcribe_async`) runs to completion or raises. -/
inductive PipelineRun where
  | ok
  /-- The coroutine raised after completing `checkpoints` of its progress
  checkpoints (the exception propagates before the stage's result record
  is written; every later step of the coroutine swallows its own
  exceptions). -/
  | raises (checkpoints : Nat) (msg : String)
deriving Repr, DecidableEq

structure WorkerEnv where
  downloadOk : Bool
  run : PipelineRun
deriving Repr, DecidableEq

/-- Observable state of the whisper-transcriber worker:
`transcription:{sid}` records, `transcription_error:{sid}` records, the
progress updates sent, the number of transcripts posted to the LLM
service (the downstream hand-off), and broker ack/nack counters. -/
structure WhisperState where
  transcriptionStore : List (String × String)
  errorStore : List (String × String)
  progressSent : List ProgressUpdate
  llmSends : Nat
  acks : Nat
  nacks : Nat
deriving Repr, DecidableEq

/-- A Redis `setex key value`: left-biased association-list update. -/
def storeSet (store : List (String × String)) (key value : String) :
    List (String × String) :=
  (key, value) :: store.filter (fun kv => kv.1 ≠ key)

/-- The characters of a string, lower-cased (`original_filename.lower()`). -/
def lowerChars (s : String) : List Char := s.data.map Char.toLower

/-- Python's `ext in s`: substring containment, on character lists. -/
def containsSeq (pat : List Char) : List Char → Bool
  | [] => pat.isEmpty
  | c :: cs => pat.isPrefixOf (c :: cs) || containsSeq pat cs

/-- The media-extension check of whisper-transcriber `process_upload_message`
(line 980): `any(ext in original_filename.lower() for ext in [...])`. -/
def isTranscribableName (name : String) : Bool :=
  [".mp3", ".wav", ".m4a", ".flac", ".aac", ".mp4", ".avi", ".mov", ".mkv",
    ".webm"].any (fun ext => containsSeq ext.data (lowerChars name))

/-- The checkpoint updates `transcribe_async` sends on a successful run
(whisper-transcriber/main.py lines 1094-1231). -/
def whisperSuccessUpdates : List ProgressUpdate :=
  [⟨65, "Loading transcription models...", "processing"⟩,
   ⟨70, "Detecting language...", "processing"⟩,
   ⟨75, "Transcribing audio...", "processing"⟩,
   ⟨80, "Improving timestamp accuracy...", "processing"⟩,
   ⟨85, "Identifying speakers...", "processing"⟩,
   ⟨90, "Formatting transcription...", "processing"⟩,
   ⟨95, "Sending for analysis...", "processing"⟩,
   ⟨100, "Transcription complete!", "completed"⟩]

/-- Embedding of the whisper-transcriber queue handler
`process_upload_message` (lines 964-1045) together with the effects of
`transcribe_async` (lines 1083-1272).  `result` is the serialized
transcription record the pipeline would store for this session.  Control
flow mirrors the source: invalid message → ack; unsupported extension →
ack; failed download → ack; otherwise `transcribe_async` runs — on
success it overwrites `transcription:{sid}`, posts once to the LLM
service and reports the fixed checkpoints; on an exception it stores
`transcription_error:{sid}` and reports `(0, "Transcription failed: …",
"error")` (once from `transcribe_async`'s handler and once from the
caller's).  Every path ends in `ch.basic_ack`; no path negatively
acknowledges.  Nothing is ever looked up in `transcriptionStore` before
processing. -/
def whisper_process_upload_message (env : WorkerEnv) (m : StageMessage)
    (result : String) (st : WhisperState) : WhisperState :=
  if m.session_id = "" ∨ m.object_name = "" then
    { st with acks := st.acks + 1 }
  else if ¬ isTranscribableName m.original_filename then
    { st with acks := st.acks + 1 }
  else if ¬ env.downloadOk then
    { st with acks := st.acks + 1 }
  else
    match env.run with
    | .ok =>
      { st with
        transcriptionStore :=
          storeSet st.transcriptionStore ("transcription:" ++ m.session_id) result
        progressSent := st.progressSent ++ whisperSuccessUpdates
        llmSends := st.llmSends + 1
        acks := st.acks + 1 }
    | .raises k e =>
      { st with
        errorStore :=
          storeSet st.errorStore ("transcription_error:" ++ m.session_id) e
        progressSent := st.progressSent ++ (whisperSuccessUpdates.take (min k 6)) ++
          [⟨0, "Transcription failed: " ++ e, "error"⟩,
           ⟨0, "Transcription failed: " ++ e, "error"⟩]
        acks := st.acks + 1 }

/-- Observable state of the video-processor worker: `video_metadata:{sid}`
records, `processing_error:{sid}` records, progress updates sent, posts of
extracted audio to the whisper service (the downstream hand-off), and
broker ack/nack counters. -/
structure VideoState where
  metadataStore : List (String × String)
  errorStore : List (String × String)
  progressSent : List ProgressUpdate
  whisperSends : Nat
  acks : Nat
  nacks : Nat
deriving Repr, DecidableEq

/-- The checkpoint updates `process_video_async` sends on a successful run
(video-processor/main.py lines 231-291). -/
def videoCheckpoints : List ProgressUpdate :=
  [⟨10, "Analyzing video file...", "processing"⟩,
   ⟨25, "Extracting audio track...", "processing"⟩,
   ⟨40, "Enhancing audio quality...", "processing"⟩,
   ⟨60, "Sending to transcription service...", "processing"⟩]

/-- Embedding of the video-processor queue handler `process_upload_message`
(video-processor/main.py lines 344-397) with the effects of
`process_video_async` (lines 231-313).  On success the metadata record is
written, the 10/25/40/60 checkpoints are reported and the audio is posted
once to the whisper service; on an exception `processing_error:{sid}` is
written and `(0, "Processing failed: …", "error")` reported.  Every path
acknowledges; there is no check of previously stored results. -/
def video_process_upload_message (env : WorkerEnv) (m : StageMessage)
    (metadata : String) (st : VideoState) : VideoState :=
  if m.session_id = "" ∨ m.object_name = "" then
    { st with acks := st.acks + 1 }
  else if ¬ env.downloadOk then
    { st with acks := st.acks + 1 }
  else
    match env.run with
    | .ok =>
      { st with
        metadataStore :=
          storeSet st.metadataStore ("video_metadata:" ++ m.session_id) metadata
        progressSent := st.progressSent ++ videoCheckpoints
        whisperSends := st.whisperSends + 1
        acks := st.acks + 1 }
    | .raises k e =>
      { st with
        errorStore :=
          storeSet st.errorStore ("processing_error:" ++ m.session_id) e
        progressSent := st.progressSent ++ (videoCheckpoints.take (min k 4)) ++
          [⟨0, "Processing failed: " ++ e, "error"⟩]
        acks := st.acks + 1 }

/-! ## Progress store (`update_progress`, file-uploader/main.py lines 721-782)

The endpoint stores the submitted `{progress, message, status}` under
`upload_progress:{sid}` and, when a `transcription:{sid}` entry exists,
mirrors the status and progress into it (also stamping `completedAt` when
the update says completed or reaches 100). -/

structure ProgressRecord where
  progress : ℚ
  message : String
  status : String
deriving Repr, DecidableEq

/-- The status/progress fields of a `transcription:{sid}` record that
`update_progress` touches. -/
structure TranscriptionStatusFields where
  status : String
  sessionStatus : String
  progress : ℚ
  completedAtSet : Bool
deriving Repr, DecidableEq

/-- Embedding of `update_progress`: the stored progress record is replaced
by the update unconditionally (no comparison with the previous record),
and an existing transcription entry's status fields are overwritten from
the update. -/
def update_progress (u : ProgressRecord)
    (stored : Option ProgressRecord) (tr : Option TranscriptionStatusFields) :
    ProgressRecord × Option TranscriptionStatusFields :=
  let _ := stored
  let tr' := tr.map (fun t =>
    { t with
      status := u.status
      sessionStatus := u.status
      progress := u.progress
      completedAtSet :=
        if u.status == "completed" || u.progress ≥ 100 then true
        else t.completedAtSet })
  (u, tr')

/-- The progress record left after a sequence of `update_progress` calls,
starting from `init`. -/
def progressAfter (init : ProgressRecord) (updates : List ProgressRecord) :
    ProgressRecord :=
  updates.foldl (fun s u => (update_progress u (some s) none).1) init

/-! ## Speaker assignment (`assign_speakers_to_segments`,
whisper-transcriber/main.py lines 800-839, mock-diarization branch
lines 811-826)

For every transcript segment the code computes the midpoint of its span,
scans the diarization turns in list order, assigns the speaker of the
first turn whose closed interval `[start, end]` contains the midpoint,
and — only when the segment dict has no `speaker` key at all — falls back
to the constant `"SPEAKER_0"`. -/

/-- A diarization turn `{"start": …, "end": …, "speaker": …}` (`stop`
stands for the source's `end`, a reserved word in Lean). -/
structure DiarTurn where
  start : ℚ
  stop : ℚ
  speaker : String
deriving Repr, DecidableEq

/-- A transcript segment; `speaker` is `none` when the Python dict has no
`"speaker"` key. -/
structure TranscriptSegment where
  start : ℚ
  stop : ℚ
  text : String
  speaker : Option String
deriving Repr, DecidableEq

/-- `diar_segment["start"] <= segment_center <= diar_segment["end"]`. -/
def turnContains (t : DiarTurn) (x : ℚ) : Prop :=
  t.start ≤ x ∧ x ≤ t.stop

instance (t : DiarTurn) (x : ℚ) : Decidable (turnContains t x) := by
  unfold turnContains; infer_instance

/-- First turn in list order whose closed interval contains `x`
(the `for … break` loop of lines 820-823). -/
def findContainingTurn (x : ℚ) : List DiarTurn → Option DiarTurn
  | [] => none
  | t :: ts => if turnContains t x then some t else findContainingTurn x ts

/-- Midpoint `(segment["start"] + segment["end"]) / 2` (line 818). -/
def segmentMid (s : TranscriptSegment) : ℚ := (s.start + s.stop) / 2

/-- Speaker assignment for one segment (lines 816-826). -/
def assignSpeaker (turns : List DiarTurn) (s : TranscriptSegment) :
    TranscriptSegment :=
  match findContainingTurn (segmentMid s) turns with
  | some t => { s with speaker := some t.speaker }
  | none =>
    match s.speaker with
    | none => { s with speaker := some "SPEAKER_0" }
    | some _ => s

/-- The mock branch of `assign_speakers_to_segments` applied to every
transcript segment. -/
def assign_speakers_to_segments (segments : List TranscriptSegment)
    (turns : List DiarTurn) : List TranscriptSegment :=
  segments.map (assignSpeaker turns)

/-! ## Synthetic diarization (`mock_diarize_speakers`,
whisper-transcriber/main.py lines 740-775)

`segment_length = 5.0`; `num_segments = int(duration / segment_length) + 1`;
window `i` spans `[i*5, min((i+1)*5, duration)]` and is labelled
`SPEAKER_{i % number_of_speakers}`; the result dict carries
`"is_mocked": True`. -/

/-- Number of synthetic windows for a given (non-negative) duration. -/
def mockNumSegments (duration : ℚ) : Nat := ⌊duration / 5⌋₊ + 1

/-- The `i`-th synthetic turn. -/
def mockTurn (duration : ℚ) (numberOfSpeakers : Nat) (i : Nat) : DiarTurn :=
  { start := i * 5
    stop := min ((i + 1) * 5) duration
    speaker := "SPEAKER_" ++ toString (i % numberOfSpeakers) }

/-- Result of `mock_diarize_speakers` on the success path: the list of
synthetic turns and the `is_mocked` flag. -/
structure MockDiarization where
  segments : List DiarTurn
  is_mocked : Bool
deriving Repr, DecidableEq

/-- Embedding of `mock_diarize_speakers` (audio loading taken as
succeeding; on a loading failure the source returns `None` without
producing any turns). -/
def mock_diarize_speakers (duration : ℚ) (numberOfSpeakers : Nat) :
    MockDiarization :=
  { segments :=
      (List.range (mockNumSegments duration)).map
        (mockTurn duration numberOfSpeakers)
    is_mocked := true }

/-! ## Speaker-name remap (`update_speaker_names`,
whisper-transcriber/main.py lines 1434-1475)

The stored transcription holds raw `segments` (dicts that may carry a
`speaker` key and receive a `speaker_name` key) and `diarized_segments`
(dicts `{speaker, start, end, text}` whose `speaker` already holds the
display value, see `format_transcription_result` lines 870-882).  The
handler writes `speaker_name` on raw segments but overwrites the
`speaker` field itself on diarized segments. -/

/-- A diarized segment as stored by `format_transcription_result`. -/
structure DiarizedSegment where
  speaker : String
  start : ℚ
  stop : ℚ
  text : String
deriving Repr, DecidableEq

/-- A raw stored segment: `speaker` / `speaker_name` are `none` when the
dict lacks the key. -/
structure StoredSegment where
  start : ℚ
  stop : ℚ
  text : String
  speaker : Option String
  speaker_name : Option String
deriving Repr, DecidableEq

/-- The relevant parts of a `transcription:{sid}` record. -/
structure StoredTranscription where
  segments : List StoredSegment
  diarized_segments : List DiarizedSegment
deriving Repr, DecidableEq

/-- Lookup in the `speaker_map` dict of the request. -/
def mapLookup (m : List (String × String)) (k : String) : Option String :=
  (m.find? (fun kv => kv.1 == k)).map (·.2)

/-- `speaker = segment.get("speaker"); if speaker and speaker in
request.speaker_map: segment["speaker_name"] = request.speaker_map[speaker]`
(lines 1446-1450).  `if speaker` is Python truthiness: an absent key or an
empty string skips the segment. -/
def updateStoredSegment (m : List (String × String)) (s : StoredSegment) :
    StoredSegment :=
  match s.speaker with
  | none => s
  | some sp =>
    if sp = "" then s
    else
      match mapLookup m sp with
      | some name => { s with speaker_name := some name }
      | none => s

/-- `if speaker and speaker in request.speaker_map:
segment["speaker"] = request.speaker_map[speaker]` (lines 1453-1457) —
the diarized segment's `speaker` field itself is rewritten. -/
def updateDiarizedSegment (m : List (String × String)) (d : DiarizedSegment) :
    DiarizedSegment :=
  if d.speaker = "" then d
  else
    match mapLookup m d.speaker with
    | some name => { d with speaker := name }
    | none => d

/-- Embedding of `update_speaker_names` applied to a stored transcription. -/
def update_speaker_names (m : List (String × String))
    (t : StoredTranscription) : StoredTranscription :=
  { segments := t.segments.map (updateStoredSegment m)
    diarized_segments := t.diarized_segments.map (updateDiarizedSegment m) }

/-! ## Transcription fallback (`transcribe_audio`,
whisper-transcriber/main.py lines 603-708, and the storing epilogue of
`transcribe_async`, lines 1156-1216)

`transcribe_audio` is total: with the mock placeholder model it returns a
single `[0.0, 10.0]` segment announcing the load failure, and when the
real transcription call raises it catches the exception and returns a
single `[0.0, 10.0]` segment carrying the error text.  `transcribe_async`
then stores the session's transcription record with `status "completed"`,
`progress 100` and `hasTranscript True`. -/

/-- Behaviour of the underlying transcription call for the loaded model. -/
inductive ModelCall where
  | returns (segments : List TranscriptSegment) (language : String)
  | raises (msg : String)
deriving Repr, DecidableEq

/-- The model handle `transcribe_audio` receives: either the string
`"mock_model"` placeholder left by `load_whisper_model`, or a loaded
model whose call behaves as described. -/
inductive WhisperModelHandle where
  | mock
  | loaded (call : ModelCall)
deriving Repr, DecidableEq

/-- Value of `transcribe_audio`. -/
structure TranscribeResult where
  segments : List TranscriptSegment
  language : String
deriving Repr, DecidableEq

/-- Python `language or "en"`: `None` and `""` both fall back to `"en"`. -/
def languageOrEn (language : Option String) : String :=
  match language with
  | none => "en"
  | some s => if s = "" then "en" else s

/-- Embedding of `transcribe_audio`.  No branch raises. -/
def transcribe_audio (model : WhisperModelHandle) (language : Option String) :
    TranscribeResult :=
  match model with
  | .mock =>
    { segments := [⟨0, 10,
        "Mock transcription - WhisperX model failed to load properly.",
        some "SPEAKER_00"⟩]
      language := languageOrEn language }
  | .loaded (.returns segs lang) => { segments := segs, language := lang }
  | .loaded (.raises e) =>
    { segments := [⟨0, 10,
        "Transcription failed: " ++ e ++ ". Please check WhisperX installation.",
        some "SPEAKER_00"⟩]
      language := languageOrEn language }

/-- The status fields of the transcription record `transcribe_async`
stores after a successful pipeline run (lines 1157-1184). -/
structure FinishedRecord where
  status : String
  sessionStatus : String
  progress : ℚ
  hasTranscript : Bool
  segments : List TranscriptSegment
  language : String
deriving Repr, DecidableEq

/-- The record `transcribe_async` writes to `transcription:{sid}` for the
transcription it obtained: always `completed` / `100` / `hasTranscript`. -/
def transcribe_async_record (r : TranscribeResult) : FinishedRecord :=
  { status := "completed"
    sessionStatus := "completed"
    progress := 100
    hasTranscript := true
    segments := r.segments
    language := r.language }

/-! # Claims -/

/-! ## C1 — `Complete` validation -/

/-- **C1** (counterexample).  The claim that `Complete` succeeds iff the
recorded part-number set is exactly `{1..N}` and otherwise fails with a
`ValidationError` leaving the session unmutated is false: for a session
whose only recorded part is number 2 the contiguity check fails, yet
`complete_upload` succeeds, marks the session complete, and publishes a
stage message. -/
theorem C1_complete_mismatch_counterexample :
    partsConsecutive [⟨2, "e2"⟩] = false ∧
    complete_upload [⟨2, "e2"⟩] =
      { outcome := .success true
        sessionMarkedComplete := true
        messagesPublished := 1 } := by
  decide

/-- **C1** (amended).  `complete_upload` fails only on an empty recorded
part list, and there the internal HTTP-400 raise is swallowed by the
handler's catch-all and re-surfaced as HTTP 500 `"Failed to complete
upload: 400: No parts found for this upload"`, with the session
unmutated and nothing published.  Any non-empty part list — contiguous
or not — succeeds: the session is marked complete and exactly one stage
message is published; the contiguity comparison only selects whether the
non-consecutive warning is logged. -/
theorem C1_complete_upload_behavior (parts : List PartEntry)
    (h : parts ≠ []) :
    (complete_upload parts).outcome = .success (!partsConsecutive parts) ∧
    (complete_upload parts).sessionMarkedComplete = true ∧
    (complete_upload parts).messagesPublished = 1 ∧
    (complete_upload []).outcome = .httpError 500
      ("Failed to complete upload: " ++
        httpExceptionStr 400 "No parts found for this upload") ∧
    (complete_upload []).sessionMarkedComplete = false ∧
    (complete_upload []).messagesPublished = 0 := by
  have hne : parts.isEmpty = false := by
    cases parts with
    | nil => exact absurd rfl h
    | cons a l => rfl
  refine ⟨?_, ?_, ?_, ?_, ?_, ?_⟩ <;> simp [complete_upload, hne]

theorem C1_complete_upload_behavior_witness :
    (complete_upload [⟨2, "e2"⟩]).outcome =
      .success (!partsConsecutive [⟨2, "e2"⟩]) ∧
    (complete_upload [⟨2, "e2"⟩]).sessionMarkedComplete = true ∧
    (complete_upload [⟨2, "e2"⟩]).messagesPublished = 1 ∧
    (complete_upload []).outcome = .httpError 500
      ("Failed to complete upload: " ++
        httpExceptionStr 400 "No parts found for this upload") ∧
    (complete_upload []).sessionMarkedComplete = false ∧
    (complete_upload []).messagesPublished = 0 :=
  C1_complete_upload_behavior [⟨2, "e2"⟩] (by decide)

/-! ## C4 — `RecordPart` -/

/-- **C4** (counterexample).  The claim that recording a part with an
already-recorded `part_number` overwrites the prior entry (so the part
map holds at most one entry per part number) is false: `upload_part`
appends, so recording part 1 twice leaves two entries for part number 1,
the first of them unchanged. -/
theorem C4_record_part_duplicate_counterexample :
    upload_part_record (upload_part_record [] 1 "a") 1 "b" =
      [⟨1, "a"⟩, ⟨1, "b"⟩] ∧
    countPartNumber (upload_part_record (upload_part_record [] 1 "a") 1 "b") 1
      = 2 := by
  decide

/-- **C4** (amended).  `upload_part` appends unconditionally: every
recording grows the part list by one, increments the count of entries
with the recorded part number, and keeps every previous entry — so the
session's part list can accumulate several entries per part number. -/
theorem C4_record_part_appends (parts : List PartEntry) (n : Nat)
    (e : String) :
    (upload_part_record parts n e).length = parts.length + 1 ∧
    countPartNumber (upload_part_record parts n e) n
      = countPartNumber parts n + 1 ∧
    ∀ p ∈ parts, p ∈ upload_part_record parts n e := by
  refine ⟨by simp [upload_part_record], ?_, ?_⟩
  · simp [upload_part_record, countPartNumber]
  · intro p hp
    simp only [upload_part_record, List.mem_append]
    exact Or.inl hp

/-! ## C9 — progress monotonicity -/

/-- **C9** (counterexample).  The claim that the stored percent never
decreases while the status is non-terminal, and that a terminal status is
never followed by a `processing` read, is false: `update_progress` stores
whatever it is given.  After an update to 50 % `processing`, an update to
10 % `processing` is stored as-is (the percent decreases), and after
100 % `completed` an update to 5 % `processing` makes reads report
`processing` again. -/
theorem C9_progress_overwrite_counterexample :
    (progressAfter ⟨0, "", "uploading"⟩
        [⟨50, "m1", "processing"⟩]).progress = 50 ∧
    (progressAfter ⟨0, "", "uploading"⟩
        [⟨50, "m1", "processing"⟩]).status = "processing" ∧
    (progressAfter ⟨0, "", "uploading"⟩
        [⟨50, "m1", "processing"⟩, ⟨10, "m2", "processing"⟩]).progress = 10 ∧
    ((10 : ℚ) < 50) ∧
    (progressAfter ⟨0, "", "uploading"⟩
        [⟨100, "done", "completed"⟩, ⟨5, "m3", "processing"⟩]).status
      = "processing" := by
  decide

/-- **C9** (amended).  `update_progress` is last-writer-wins: after any
sequence of updates the stored progress record is exactly the last update
(or the initial record when there was none), whatever the earlier records
said — no monotonicity check and no terminal-status guard exist. -/
theorem C9_progress_last_writer_wins (init : ProgressRecord)
    (updates : List ProgressRecord) :
    progressAfter init updates = updates.getLastD init := by
  induction updates generalizing init with
  | nil => rfl
  | cons u rest ih =>
    rw [List.getLastD_cons]
    exact ih u

/-! ## C2 — redelivery idempotency -/

/-- **C2** (counterexample).  The claim that re-delivering a stage message
for a session that already has a terminal result is a no-op (no
reprocessing, no duplicate downstream publish) is false: starting from a
state whose store already holds the terminal result for session `s`, the
whisper worker still runs the full pipeline and posts the transcript
downstream once more — there is no existing-result lookup. -/
theorem C2_redelivery_counterexample :
    (whisper_process_upload_message ⟨true, .ok⟩ ⟨"s", "o", "a.mp3"⟩ "R"
        ⟨[("transcription:s", "R")], [], [], 0, 0, 0⟩).llmSends = 1 ∧
    (whisper_process_upload_message ⟨true, .ok⟩ ⟨"s", "o", "a.mp3"⟩ "R"
        ⟨[("transcription:s", "R")], [], [], 0, 0, 0⟩).progressSent
      = whisperSuccessUpdates := by
  decide

/-- **C2** (amended).  Neither queue worker consults previously stored
results: on every successful delivery of a well-formed media message —
whatever the starting state, in particular when a terminal result for the
session is already stored — the whisper worker re-runs the pipeline,
overwrites `transcription:{sid}` and posts downstream once more, and the
video worker re-extracts and posts to the whisper service once more; the
message is acknowledged each time. -/
theorem C2_no_idempotency_check (m : StageMessage) (r meta : String)
    (wst : WhisperState) (vst : VideoState)
    (h1 : m.session_id ≠ "") (h2 : m.object_name ≠ "")
    (h3 : isTranscribableName m.original_filename = true) :
    (whisper_process_upload_message ⟨true, .ok⟩ m r wst).llmSends
      = wst.llmSends + 1 ∧
    (whisper_process_upload_message ⟨true, .ok⟩ m r wst).transcriptionStore
      = storeSet wst.transcriptionStore ("transcription:" ++ m.session_id) r ∧
    (whisper_process_upload_message ⟨true, .ok⟩ m r wst).acks = wst.acks + 1 ∧
    (video_process_upload_message ⟨true, .ok⟩ m meta vst).whisperSends
      = vst.whisperSends + 1 ∧
    (video_process_upload_message ⟨true, .ok⟩ m meta vst).acks
      = vst.acks + 1 := by
  refine ⟨?_, ?_, ?_, ?_, ?_⟩ <;>
    simp [whisper_process_upload_message, video_process_upload_message,
      h1, h2, h3]

theorem C2_no_idempotency_check_witness :
    (whisper_process_upload_message ⟨true, .ok⟩ ⟨"s", "o", "a.mp3"⟩ "R"
        ⟨[("transcription:s", "R")], [], [], 3, 0, 0⟩).llmSends = 3 + 1 ∧
    (whisper_process_upload_message ⟨true, .ok⟩ ⟨"s", "o", "a.mp3"⟩ "R"
        ⟨[("transcription:s", "R")], [], [], 3, 0, 0⟩).transcriptionStore
      = storeSet [("transcription:s", "R")] ("transcription:" ++ "s") "R" ∧
    (whisper_process_upload_message ⟨true, .ok⟩ ⟨"s", "o", "a.mp3"⟩ "R"
        ⟨[("transcription:s", "R")], [], [], 3, 0, 0⟩).acks = 0 + 1 ∧
    (video_process_upload_message ⟨true, .ok⟩ ⟨"s", "o", "a.mp3"⟩ "M"
        ⟨[], [], [], 0, 0, 0⟩).whisperSends = 0 + 1 ∧
    (video_process_upload_message ⟨true, .ok⟩ ⟨"s", "o", "a.mp3"⟩ "M"
        ⟨[], [], [], 0, 0, 0⟩).acks = 0 + 1 :=
  C2_no_idempotency_check ⟨"s", "o", "a.mp3"⟩ "R" "M"
    ⟨[("transcription:s", "R")], [], [], 3, 0, 0⟩ ⟨[], [], [], 0, 0, 0⟩
    (by decide) (by decide) (by decide)

/-! ## C3 — failure handling -/

/-- **C3** (counterexample).  The claim that every exception during
processing writes an error record, sets the session status to `failed`
and progress to 0 is false on two counts: the status the workers report
on an exception is the string `"error"`, never `"failed"`, and a failed
MinIO download is not treated as an error at all — the message is simply
acknowledged with no error record written.  (The unconditional
acknowledgement the claim also states does hold.) -/
theorem C3_failure_status_counterexample :
    ((whisper_process_upload_message ⟨true, .raises 0 "boom"⟩
          ⟨"s", "o", "a.mp3"⟩ "R" ⟨[], [], [], 0, 0, 0⟩).progressSent.map
        (fun u => u.status)) = ["error", "error"] ∧
    ("error" : String) ≠ "failed" ∧
    (whisper_process_upload_message ⟨false, .ok⟩ ⟨"s", "o", "a.mp3"⟩ "R"
        ⟨[], [], [], 0, 0, 0⟩).errorStore = [] ∧
    (whisper_process_upload_message ⟨false, .ok⟩ ⟨"s", "o", "a.mp3"⟩ "R"
        ⟨[], [], [], 0, 0, 0⟩).acks = 1 := by
  decide

/-- Appending a final element fixes `getLast?`. -/
theorem getLast?_append_single {α : Type} (l1 l2 : List α) (a : α) :
    (l1 ++ (l2 ++ [a])).getLast? = some a := by
  rw [← List.append_assoc]
  exact List.getLast?_concat _

/-- Appending a final pair fixes `getLast?`. -/
theorem getLast?_append_pair {α : Type} (l1 l2 : List α) (a b : α) :
    (l1 ++ (l2 ++ [a, b])).getLast? = some b := by
  rw [show l1 ++ (l2 ++ [a, b]) = (l1 ++ (l2 ++ [a])) ++ [b] by simp]
  exact List.getLast?_concat _

/-- **C3** (amended).  When the stage coroutine raises for a well-formed
media message, each worker writes its error record, the last progress
update it sends carries progress 0 and status `"error"` (not `"failed"`),
and the message is acknowledged — never negatively acknowledged. -/
theorem C3_exception_handling (k : Nat) (e : String) (m : StageMessage)
    (r meta : String) (wst : WhisperState) (vst : VideoState)
    (h1 : m.session_id ≠ "") (h2 : m.object_name ≠ "")
    (h3 : isTranscribableName m.original_filename = true) :
    (whisper_process_upload_message ⟨true, .raises k e⟩ m r wst).errorStore
      = storeSet wst.errorStore ("transcription_error:" ++ m.session_id) e ∧
    (whisper_process_upload_message ⟨true, .raises k e⟩ m r wst).progressSent.getLast?
      = some ⟨0, "Transcription failed: " ++ e, "error"⟩ ∧
    (whisper_process_upload_message ⟨true, .raises k e⟩ m r wst).acks
      = wst.acks + 1 ∧
    (whisper_process_upload_message ⟨true, .raises k e⟩ m r wst).nacks
      = wst.nacks ∧
    (video_process_upload_message ⟨true, .raises k e⟩ m meta vst).errorStore
      = storeSet vst.errorStore ("processing_error:" ++ m.session_id) e ∧
    (video_process_upload_message ⟨true, .raises k e⟩ m meta vst).progressSent.getLast?
      = some ⟨0, "Processing failed: " ++ e, "error"⟩ ∧
    (video_process_upload_message ⟨true, .raises k e⟩ m meta vst).acks
      = vst.acks + 1 ∧
    (video_process_upload_message ⟨true, .raises k e⟩ m meta vst).nacks
      = vst.nacks := by
  refine ⟨?_, ?_, ?_, ?_, ?_, ?_, ?_, ?_⟩ <;>
    simp [whisper_process_upload_message, video_process_upload_message,
      h1, h2, h3, getLast?_append_single, getLast?_append_pair]

theorem C3_exception_handling_witness :
    (whisper_process_upload_message ⟨true, .raises 0 "boom"⟩
        ⟨"s", "o", "a.mp3"⟩ "R" ⟨[], [], [], 0, 0, 0⟩).errorStore
      = storeSet [] ("transcription_error:" ++ "s") "boom" ∧
    (whisper_process_upload_message ⟨true, .raises 0 "boom"⟩
        ⟨"s", "o", "a.mp3"⟩ "R" ⟨[], [], [], 0, 0, 0⟩).progressSent.getLast?
      = some ⟨0, "Transcription failed: " ++ "boom", "error"⟩ ∧
    (whisper_process_upload_message ⟨true, .raises 0 "boom"⟩
        ⟨"s", "o", "a.mp3"⟩ "R" ⟨[], [], [], 0, 0, 0⟩).acks = 0 + 1 ∧
    (whisper_process_upload_message ⟨true, .raises 0 "boom"⟩
        ⟨"s", "o", "a.mp3"⟩ "R" ⟨[], [], [], 0, 0, 0⟩).nacks = 0 ∧
    (video_process_upload_message ⟨true, .raises 0 "boom"⟩
        ⟨"s", "o", "a.mp3"⟩ "M" ⟨[], [], [], 0, 0, 0⟩).errorStore
      = storeSet [] ("processing_error:" ++ "s") "boom" ∧
    (video_process_upload_message ⟨true, .raises 0 "boom"⟩
        ⟨"s", "o", "a.mp3"⟩ "M" ⟨[], [], [], 0, 0, 0⟩).progressSent.getLast?
      = some ⟨0, "Processing failed: " ++ "boom", "error"⟩ ∧
    (video_process_upload_message ⟨true, .raises 0 "boom"⟩
        ⟨"s", "o", "a.mp3"⟩ "M" ⟨[], [], [], 0, 0, 0⟩).acks = 0 + 1 ∧
    (video_process_upload_message ⟨true, .raises 0 "boom"⟩
        ⟨"s", "o", "a.mp3"⟩ "M" ⟨[], [], [], 0, 0, 0⟩).nacks = 0 :=
  C3_exception_handling 0 "boom" ⟨"s", "o", "a.mp3"⟩ "R" "M"
    ⟨[], [], [], 0, 0, 0⟩ ⟨[], [], [], 0, 0, 0⟩
    (by decide) (by decide) (by decide)

/-! ## C5 — speaker-name remap -/

/-- **C5** (counterexample).  The claim that a remap changes only
`speaker_name` display fields and is idempotent is false on both counts:
on `diarized_segments` the handler rewrites the `speaker` field itself
(here `"SPEAKER_0"` becomes `"Alice"`), and with the map
`{SPEAKER_0 ↦ SPEAKER_1, SPEAKER_1 ↦ Bob}` a second application moves a
diarized segment's label from `"SPEAKER_1"` on to `"Bob"`. -/
theorem C5_remap_counterexample :
    (update_speaker_names [("SPEAKER_0", "Alice")]
        ⟨[], [⟨"SPEAKER_0", 0, 1, "hi"⟩]⟩).diarized_segments
      = [⟨"Alice", 0, 1, "hi"⟩] ∧
    ("Alice" : String) ≠ "SPEAKER_0" ∧
    update_speaker_names [("SPEAKER_0", "SPEAKER_1"), ("SPEAKER_1", "Bob")]
        (update_speaker_names
          [("SPEAKER_0", "SPEAKER_1"), ("SPEAKER_1", "Bob")]
          ⟨[], [⟨"SPEAKER_0", 0, 1, "x"⟩]⟩)
      ≠ update_speaker_names
          [("SPEAKER_0", "SPEAKER_1"), ("SPEAKER_1", "Bob")]
          ⟨[], [⟨"SPEAKER_0", 0, 1, "x"⟩]⟩ := by
  decide

/-- `updateStoredSegment` never touches start, end, text or the raw
`speaker` label. -/
theorem updateStoredSegment_frame (m : List (String × String))
    (s : StoredSegment) :
    (updateStoredSegment m s).start = s.start ∧
    (updateStoredSegment m s).stop = s.stop ∧
    (updateStoredSegment m s).text = s.text ∧
    (updateStoredSegment m s).speaker = s.speaker := by
  unfold updateStoredSegment
  cases hsp : s.speaker with
  | none => simp [hsp]
  | some sp =>
    by_cases he : sp = ""
    · simp [hsp, he]
    · simp only [hsp, he, if_false]
      cases mapLookup m sp <;> simp [hsp]

/-- `updateDiarizedSegment` never touches start, end or text. -/
theorem updateDiarizedSegment_frame (m : List (String × String))
    (d : DiarizedSegment) :
    (updateDiarizedSegment m d).start = d.start ∧
    (updateDiarizedSegment m d).stop = d.stop ∧
    (updateDiarizedSegment m d).text = d.text := by
  unfold updateDiarizedSegment
  by_cases hd : d.speaker = ""
  · simp [hd]
  · simp only [hd, if_false]
    cases mapLookup m d.speaker <;> simp

/-- A successful `mapLookup` names a value of the map. -/
theorem mapLookup_mem_value (m : List (String × String)) (k v : String)
    (h : mapLookup m k = some v) : ∃ p ∈ m, p.2 = v := by
  unfold mapLookup at h
  cases hf : m.find? (fun kv => kv.1 == k) with
  | none => rw [hf] at h; exact absurd h (by simp)
  | some p =>
    rw [hf] at h
    exact ⟨p, List.mem_of_find?_eq_some hf, by simpa using h⟩

/-- A successful `mapLookup` means the key occurs in the map. -/
theorem mapLookup_mem_key (m : List (String × String)) (k v : String)
    (h : mapLookup m k = some v) : ∃ q ∈ m, q.1 = k := by
  unfold mapLookup at h
  cases hf : m.find? (fun kv => kv.1 == k) with
  | none => rw [hf] at h; exact absurd h (by simp)
  | some q =>
    refine ⟨q, List.mem_of_find?_eq_some hf, ?_⟩
    have := List.find?_some hf
    simpa using this

/-- Re-applying `updateStoredSegment` changes nothing: the raw `speaker`
label is preserved, so the second lookup resolves identically. -/
theorem updateStoredSegment_idem (m : List (String × String))
    (s : StoredSegment) :
    updateStoredSegment m (updateStoredSegment m s)
      = updateStoredSegment m s := by
  cases hsp : s.speaker with
  | none =>
    have hx : updateStoredSegment m s = s := by
      unfold updateStoredSegment; simp [hsp]
    rw [hx, hx]
  | some sp =>
    by_cases he : sp = ""
    · have hx : updateStoredSegment m s = s := by
        unfold updateStoredSegment; simp [hsp, he]
      rw [hx, hx]
    · cases hl : mapLookup m sp with
      | none =>
        have hx : updateStoredSegment m s = s := by
          unfold updateStoredSegment; simp [hsp, he, hl]
        rw [hx, hx]
      | some name =>
        have hx : updateStoredSegment m s
            = { s with speaker_name := some name } := by
          unfold updateStoredSegment; simp [hsp, he, hl]
        rw [hx]
        unfold updateStoredSegment
        simp [hsp, he, hl]

/-- When no value of the map is also a key, re-applying
`updateDiarizedSegment` changes nothing. -/
theorem updateDiarizedSegment_idem (m : List (String × String))
    (hm : ∀ p ∈ m, ∀ q ∈ m, p.2 ≠ q.1) (d : DiarizedSegment) :
    updateDiarizedSegment m (updateDiarizedSegment m d)
      = updateDiarizedSegment m d := by
  by_cases he : d.speaker = ""
  · have hx : updateDiarizedSegment m d = d := by
      unfold updateDiarizedSegment; simp [he]
    rw [hx, hx]
  · cases hl : mapLookup m d.speaker with
    | none =>
      have hx : updateDiarizedSegment m d = d := by
        unfold updateDiarizedSegment; simp [he, hl]
      rw [hx, hx]
    | some v =>
      have hx : updateDiarizedSegment m d = { d with speaker := v } := by
        unfold updateDiarizedSegment; simp [he, hl]
      rw [hx]
      have hnone : mapLookup m v = none := by
        cases hl2 : mapLookup m v with
        | none => rfl
        | some w =>
          obtain ⟨p, hp, hpv⟩ := mapLookup_mem_value m d.speaker v hl
          obtain ⟨q, hq, hq1⟩ := mapLookup_mem_key m v w hl2
          exact absurd (hpv.trans hq1.symm) (hm p hp q hq)
      unfold updateDiarizedSegment
      by_cases hv : v = ""
      · simp [hv]
      · simp [hv, hnone]

/-- **C5** (amended).  A remap leaves every `start`, `end` and `text`
value — and on raw segments also the raw `speaker` label — byte-identical,
rewriting only `speaker_name` on raw segments and the display `speaker`
field on diarized segments; and it is idempotent whenever no mapped-to
name is itself a key of the map (as with ordinary label-to-name maps such
as `{label_0 ↦ Alice, label_1 ↦ Bob}`). -/
theorem C5_remap_frame_and_idem (m : List (String × String))
    (t : StoredTranscription) (hm : ∀ p ∈ m, ∀ q ∈ m, p.2 ≠ q.1) :
    ((update_speaker_names m t).segments.map
        (fun s => (s.start, s.stop, s.text, s.speaker)))
      = (t.segments.map (fun s => (s.start, s.stop, s.text, s.speaker))) ∧
    ((update_speaker_names m t).diarized_segments.map
        (fun d => (d.start, d.stop, d.text)))
      = (t.diarized_segments.map (fun d => (d.start, d.stop, d.text))) ∧
    update_speaker_names m (update_speaker_names m t)
      = update_speaker_names m t := by
  refine ⟨?_, ?_, ?_⟩
  · unfold update_speaker_names
    simp only [List.map_map]
    apply List.map_congr_left
    intro s _
    obtain ⟨h1, h2, h3, h4⟩ := updateStoredSegment_frame m s
    simp [Function.comp, h1, h2, h3, h4]
  · unfold update_speaker_names
    simp only [List.map_map]
    apply List.map_congr_left
    intro d _
    obtain ⟨h1, h2, h3⟩ := updateDiarizedSegment_frame m d
    simp [Function.comp, h1, h2, h3]
  · unfold update_speaker_names
    simp only [List.map_map]
    congr 1
    · apply List.map_congr_left
      intro s _
      exact updateStoredSegment_idem m s
    · apply List.map_congr_left
      intro d _
      exact updateDiarizedSegment_idem m hm d

theorem C5_remap_frame_and_idem_witness :
    ((update_speaker_names [("SPEAKER_0", "Alice")]
        ⟨[⟨0, 1, "hi", some "SPEAKER_0", none⟩],
         [⟨"SPEAKER_0", 0, 1, "hi"⟩]⟩).segments.map
        (fun s => (s.start, s.stop, s.text, s.speaker)))
      = (([⟨0, 1, "hi", some "SPEAKER_0", none⟩] :
          List StoredSegment).map
          (fun s => (s.start, s.stop, s.text, s.speaker))) ∧
    ((update_speaker_names [("SPEAKER_0", "Alice")]
        ⟨[⟨0, 1, "hi", some "SPEAKER_0", none⟩],
         [⟨"SPEAKER_0", 0, 1, "hi"⟩]⟩).diarized_segments.map
        (fun d => (d.start, d.stop, d.text)))
      = (([⟨"SPEAKER_0", 0, 1, "hi"⟩] : List DiarizedSegment).map
          (fun d => (d.start, d.stop, d.text))) ∧
    update_speaker_names [("SPEAKER_0", "Alice")]
        (update_speaker_names [("SPEAKER_0", "Alice")]
          ⟨[⟨0, 1, "hi", some "SPEAKER_0", none⟩],
           [⟨"SPEAKER_0", 0, 1, "hi"⟩]⟩)
      = update_speaker_names [("SPEAKER_0", "Alice")]
          ⟨[⟨0, 1, "hi", some "SPEAKER_0", none⟩],
           [⟨"SPEAKER_0", 0, 1, "hi"⟩]⟩ :=
  C5_remap_frame_and_idem [("SPEAKER_0", "Alice")]
    ⟨[⟨0, 1, "hi", some "SPEAKER_0", none⟩], [⟨"SPEAKER_0", 0, 1, "hi"⟩]⟩
    (by decide)

/-! ## C6 / C8 — speaker assignment -/

/-- When no turn's closed interval contains the point, the containing-turn
scan comes back empty. -/
theorem findContainingTurn_eq_none (x : ℚ) (turns : List DiarTurn)
    (h : ∀ t ∈ turns, ¬ turnContains t x) :
    findContainingTurn x turns = none := by
  induction turns with
  | nil => rfl
  | cons t ts ih =>
    unfold findContainingTurn
    rw [if_neg (h t (by simp))]
    exact ih (fun u hu => h u (by simp [hu]))

/-- Whatever the scan returns is a turn of the list and contains the
point. -/
theorem findContainingTurn_spec (x : ℚ) (turns : List DiarTurn)
    (u : DiarTurn) (h : findContainingTurn x turns = some u) :
    u ∈ turns ∧ turnContains u x := by
  induction turns with
  | nil => simp [findContainingTurn] at h
  | cons t ts ih =>
    unfold findContainingTurn at h
    by_cases hc : turnContains t x
    · rw [if_pos hc] at h
      obtain rfl := Option.some.inj h
      exact ⟨by simp, hc⟩
    · rw [if_neg hc] at h
      obtain ⟨h1, h2⟩ := ih h
      exact ⟨by simp [h1], h2⟩

/-- If some turn of the list contains the point, the scan finds one. -/
theorem findContainingTurn_isSome (x : ℚ) (turns : List DiarTurn)
    (t : DiarTurn) (ht : t ∈ turns) (hc : turnContains t x) :
    (findContainingTurn x turns).isSome := by
  induction turns with
  | nil => simp at ht
  | cons u ts ih =>
    unfold findContainingTurn
    by_cases hu : turnContains u x
    · simp [hu]
    · rw [if_neg hu]
      rcases List.mem_cons.mp ht with rfl | hmem
      · exact absurd hc hu
      · exact ih hmem

/-- **C6** (counterexample).  The claim that a segment whose midpoint
falls in a diarization gap receives the label of the nearest turn is
false: with the single turn `[10, 20] → SPEAKER_1` and the segment
`[0, 2]` (midpoint 1, nearest and only turn labelled `SPEAKER_1`), the
code assigns the constant `"SPEAKER_0"`. -/
theorem C6_gap_counterexample :
    (assignSpeaker [⟨10, 20, "SPEAKER_1"⟩] ⟨0, 2, "hi", none⟩).speaker
      = some "SPEAKER_0" ∧
    ¬ turnContains ⟨10, 20, "SPEAKER_1"⟩ (segmentMid ⟨0, 2, "hi", none⟩) ∧
    ("SPEAKER_0" : String) ≠ "SPEAKER_1" := by
  have hnc : ¬ turnContains ⟨10, 20, "SPEAKER_1"⟩
      (segmentMid ⟨0, 2, "hi", none⟩) := by
    unfold turnContains segmentMid
    norm_num
  refine ⟨?_, hnc, by decide⟩
  unfold assignSpeaker
  rw [findContainingTurn_eq_none _ _ ?_]
  · intro t htm
    rw [List.mem_singleton] at htm
    subst htm
    exact hnc

/-- **C6** (amended).  When no diarization turn's closed interval contains
the segment midpoint, `assign_speakers_to_segments` performs no distance
computation: it assigns the constant `"SPEAKER_0"` when the segment dict
has no `speaker` key and otherwise keeps the existing label; the
segment's span and text are untouched. -/
theorem C6_gap_fallback (turns : List DiarTurn) (s : TranscriptSegment)
    (h : ∀ t ∈ turns, ¬ turnContains t (segmentMid s)) :
    (assignSpeaker turns s).speaker = some (s.speaker.getD "SPEAKER_0") ∧
    (assignSpeaker turns s).start = s.start ∧
    (assignSpeaker turns s).stop = s.stop ∧
    (assignSpeaker turns s).text = s.text := by
  unfold assignSpeaker
  rw [findContainingTurn_eq_none _ _ h]
  cases hsp : s.speaker <;> simp [hsp]

theorem C6_gap_fallback_witness :
    (assignSpeaker [⟨10, 20, "SPEAKER_1"⟩] ⟨0, 2, "hi", none⟩).speaker
      = some ((none : Option String).getD "SPEAKER_0") ∧
    (assignSpeaker [⟨10, 20, "SPEAKER_1"⟩] ⟨0, 2, "hi", none⟩).start = 0 ∧
    (assignSpeaker [⟨10, 20, "SPEAKER_1"⟩] ⟨0, 2, "hi", none⟩).stop = 2 ∧
    (assignSpeaker [⟨10, 20, "SPEAKER_1"⟩] ⟨0, 2, "hi", none⟩).text = "hi" :=
  C6_gap_fallback [⟨10, 20, "SPEAKER_1"⟩] ⟨0, 2, "hi", none⟩ (by
    intro t htm
    rw [List.mem_singleton] at htm
    subst htm
    unfold turnContains segmentMid
    norm_num)

/-- **C8** (confirmed).  A transcript segment lying inside a diarization
turn — with the midpoint, which that containment puts inside the turn's
interval, contained in no other turn — is assigned exactly that turn's
`speaker_label`. -/
theorem C8_contained_segment (turns : List DiarTurn)
    (s : TranscriptSegment) (t : DiarTurn) (ht : t ∈ turns)
    (hwf : s.start ≤ s.stop)
    (hc1 : t.start ≤ s.start) (hc2 : s.stop ≤ t.stop)
    (huniq : ∀ u ∈ turns, turnContains u (segmentMid s) → u = t) :
    (assignSpeaker turns s).speaker = some t.speaker := by
  have hmid : turnContains t (segmentMid s) := by
    unfold turnContains segmentMid
    constructor
    · linarith
    · linarith
  obtain ⟨u, hu⟩ :=
    Option.isSome_iff_exists.mp (findContainingTurn_isSome _ _ _ ht hmid)
  obtain ⟨humem, hucont⟩ := findContainingTurn_spec _ _ _ hu
  have hut : u = t := huniq u humem hucont
  unfold assignSpeaker
  rw [hu, hut]

theorem C8_contained_segment_witness :
    (assignSpeaker [⟨0, 10, "SPEAKER_1"⟩] ⟨2, 4, "x", none⟩).speaker
      = some "SPEAKER_1" :=
  C8_contained_segment [⟨0, 10, "SPEAKER_1"⟩] ⟨2, 4, "x", none⟩
    ⟨0, 10, "SPEAKER_1"⟩ (by simp) (by norm_num) (by norm_num) (by norm_num)
    (by intro u hu _; exact List.mem_singleton.mp hu)

/-! ## C7 — synthetic diarization -/

/-- **C7** (counterexample).  The claim that the synthesized fallback
diarization always cycles its labels through exactly `participant_count`
distinct speaker values is false for short durations: for duration 1 and
2 requested speakers there is a single 5-second window, so the only label
produced is `"SPEAKER_0"` and `"SPEAKER_1"` never occurs. -/
theorem C7_short_duration_counterexample :
    ((mock_diarize_speakers 1 2).segments.map (fun t => t.speaker))
      = ["SPEAKER_0"] ∧
    ¬ (∃ t ∈ (mock_diarize_speakers 1 2).segments,
        t.speaker = "SPEAKER_1") := by
  have hfloor : ⌊(1 : ℚ) / 5⌋₊ = 0 := by
    rw [Nat.floor_eq_zero]
    norm_num
  have hseg : (mock_diarize_speakers 1 2).segments = [mockTurn 1 2 0] := by
    unfold mock_diarize_speakers mockNumSegments
    rw [hfloor]
    rfl
  constructor
  · rw [hseg]
    decide
  · rw [hseg]
    rintro ⟨t, htm, hts⟩
    rw [List.mem_singleton] at htm
    subst htm
    exact absurd hts (by decide)

/-- **C7** (amended).  The synthesized fallback diarization carries the
explicit `is_mocked` flag and partitions `[0, duration)` into 5-second
windows with no gaps and no overlaps; its labels are always of the form
`SPEAKER_k` with `k < participant_count`, and every one of those
`participant_count` distinct labels actually occurs provided there are at
least `participant_count` windows (i.e. `participant_count ≤
⌊duration/5⌋ + 1`) — for shorter durations only the first windows' labels
appear. -/
theorem C7_mock_diarization (duration : ℚ) (n : Nat)
    (hn : 1 ≤ n) (hcover : n ≤ mockNumSegments duration) :
    (mock_diarize_speakers duration n).is_mocked = true ∧
    (∀ x : ℚ, 0 ≤ x → x < duration →
      ∃ t ∈ (mock_diarize_speakers duration n).segments,
        t.start ≤ x ∧ x < t.stop) ∧
    (∀ i j : Nat, i < mockNumSegments duration →
      j < mockNumSegments duration → ∀ x : ℚ,
      (mockTurn duration n i).start ≤ x → x < (mockTurn duration n i).stop →
      (mockTurn duration n j).start ≤ x → x < (mockTurn duration n j).stop →
      i = j) ∧
    (∀ t ∈ (mock_diarize_speakers duration n).segments,
      ∃ k, k < n ∧ t.speaker = "SPEAKER_" ++ toString k) ∧
    (∀ k, k < n → ∃ t ∈ (mock_diarize_speakers duration n).segments,
      t.speaker = "SPEAKER_" ++ toString k) := by
  refine ⟨rfl, ?_, ?_, ?_, ?_⟩
  · -- coverage of [0, duration) with no gap: x lies in window ⌊x/5⌋
    intro x hx0 hxd
    refine ⟨mockTurn duration n ⌊x / 5⌋₊, ?_, ?_, ?_⟩
    · unfold mock_diarize_speakers
      refine List.mem_map_of_mem _ (List.mem_range.mpr ?_)
      unfold mockNumSegments
      have hx5 : x / 5 ≤ duration / 5 := by gcongr
      exact Nat.lt_succ_of_le (Nat.floor_le_floor hx5)
    · show ((⌊x / 5⌋₊ : ℚ)) * 5 ≤ x
      have hfl : (⌊x / 5⌋₊ : ℚ) ≤ x / 5 := Nat.floor_le (by positivity)
      linarith
    · show x < min (((⌊x / 5⌋₊ : ℚ) + 1) * 5) duration
      refine lt_min ?_ hxd
      have hfl : x / 5 < (⌊x / 5⌋₊ : ℚ) + 1 := Nat.lt_floor_add_one _
      linarith
  · -- the half-open windows are pairwise disjoint
    intro i j hi hj x hi1 hi2 hj1 hj2
    simp only [mockTurn] at hi1 hi2 hj1 hj2
    rcases lt_trichotomy i j with hij | hij | hij
    · exfalso
      have h1 : x < ((i : ℚ) + 1) * 5 := lt_of_lt_of_le hi2 (min_le_left _ _)
      have h2 : ((i : ℚ) + 1) ≤ (j : ℚ) := by exact_mod_cast hij
      nlinarith
    · exact hij
    · exfalso
      have h1 : x < ((j : ℚ) + 1) * 5 := lt_of_lt_of_le hj2 (min_le_left _ _)
      have h2 : ((j : ℚ) + 1) ≤ (i : ℚ) := by exact_mod_cast hij
      nlinarith
  · -- closure: every label is SPEAKER_k with k < n
    intro t htm
    unfold mock_diarize_speakers at htm
    obtain ⟨i, hir, rfl⟩ := List.mem_map.mp htm
    exact ⟨i % n, Nat.mod_lt _ hn, rfl⟩
  · -- occurrence: window k < n ≤ number of windows carries SPEAKER_k
    intro k hk
    refine ⟨mockTurn duration n k, ?_, ?_⟩
    · unfold mock_diarize_speakers
      exact List.mem_map_of_mem _
        (List.mem_range.mpr (lt_of_lt_of_le hk hcover))
    · show "SPEAKER_" ++ toString (k % n) = "SPEAKER_" ++ toString k
      rw [Nat.mod_eq_of_lt hk]

theorem C7_mock_diarization_witness :
    (1 : Nat) ≤ 2 ∧ (2 : Nat) ≤ mockNumSegments 10 ∧
    ((mock_diarize_speakers 10 2).is_mocked = true ∧
    (∀ x : ℚ, 0 ≤ x → x < 10 →
      ∃ t ∈ (mock_diarize_speakers 10 2).segments,
        t.start ≤ x ∧ x < t.stop) ∧
    (∀ i j : Nat, i < mockNumSegments 10 →
      j < mockNumSegments 10 → ∀ x : ℚ,
      (mockTurn 10 2 i).start ≤ x → x < (mockTurn 10 2 i).stop →
      (mockTurn 10 2 j).start ≤ x → x < (mockTurn 10 2 j).stop →
      i = j) ∧
    (∀ t ∈ (mock_diarize_speakers 10 2).segments,
      ∃ k, k < 2 ∧ t.speaker = "SPEAKER_" ++ toString k) ∧
    (∀ k, k < 2 → ∃ t ∈ (mock_diarize_speakers 10 2).segments,
      t.speaker = "SPEAKER_" ++ toString k)) := by
  have hns : mockNumSegments 10 = 3 := by
    unfold mockNumSegments
    have : ((10 : ℚ) / 5) = 2 := by norm_num
    rw [this]
    simp
  exact ⟨by norm_num, by rw [hns]; norm_num,
    C7_mock_diarization 10 2 (by norm_num) (by rw [hns]; norm_num)⟩

/-! ## C10 — transcription never fails the session -/

/-- **C10** (confirmed).  `transcribe_audio` returns in every branch: with
the `"mock_model"` placeholder, or when the underlying transcription call
raises, it yields a single placeholder segment spanning `[0.0, 10.0]`
labelled `SPEAKER_00` whose text describes the failure, and the pipeline
epilogue then stores the session's transcription record with status
`completed`, progress `100` and `hasTranscript` — an inference failure
inside transcription never produces a failed session. -/
theorem C10_transcription_never_fails (model : WhisperModelHandle)
    (language : Option String)
    (h : model = .mock ∨ ∃ e, model = .loaded (.raises e)) :
    (∃ txt,
      (transcribe_audio model language).segments
        = [⟨0, 10, txt, some "SPEAKER_00"⟩] ∧
      (txt = "Mock transcription - WhisperX model failed to load properly."
        ∨ ∃ e, txt = "Transcription failed: " ++ e ++
            ". Please check WhisperX installation.")) ∧
    (transcribe_async_record (transcribe_audio model language)).status
      = "completed" ∧
    (transcribe_async_record (transcribe_audio model language)).sessionStatus
      = "completed" ∧
    (transcribe_async_record (transcribe_audio model language)).progress
      = 100 ∧
    (transcribe_async_record (transcribe_audio model language)).hasTranscript
      = true := by
  rcases h with rfl | ⟨e, rfl⟩
  · exact ⟨⟨_, rfl, Or.inl rfl⟩, rfl, rfl, rfl, rfl⟩
  · exact ⟨⟨_, rfl, Or.inr ⟨e, rfl⟩⟩, rfl, rfl, rfl, rfl⟩

theorem C10_transcription_never_fails_witness :
    (∃ txt,
      (transcribe_audio .mock none).segments
        = [⟨0, 10, txt, some "SPEAKER_00"⟩] ∧
      (txt = "Mock transcription - WhisperX model failed to load properly."
        ∨ ∃ e, txt = "Transcription failed: " ++ e ++
            ". Please check WhisperX installation.")) ∧
    (transcribe_async_record (transcribe_audio .mock none)).status
      = "completed" ∧
    (transcribe_async_record (transcribe_audio .mock none)).sessionStatus
      = "completed" ∧
    (transcribe_async_record (transcribe_audio .mock none)).progress = 100 ∧
    (transcribe_async_record (transcribe_audio .mock none)).hasTranscript
      = true :=
  C10_transcription_never_fails .mock none (Or.inl rfl)

end WhisperNotes
